import Mathlib

/-!
Shallow embedding of `consensus/cached_tree_hash/src/arena_backing.rs`.

The arena stores 32-byte digests (`Hash256`) either in a vector backing
(`Vec<Hash256>`) or in an anonymous memory-mapped byte buffer (`AnonMmap`).
Bytes are modelled as `Nat` (they are only copied and compared), a mapped
buffer as a `List` of bytes whose length is the physical capacity, and every
Rust operation that can panic (slice indexing, `copy_from_slice` length
mismatch, `copy_within` out of bounds, `checked_sub(..).expect(..)`,
`assert!`, a failing anonymous map request) returns `Except RustPanic`.
-/

def HASHSIZE : Nat := 32

abbrev Byte := Nat

/-- `Hash256`: an opaque 32-byte digest. -/
abbrev Hash256 := { l : List Byte // l.length = HASHSIZE }

/-- `Hash256::as_bytes`. -/
def Hash256.as_bytes (h : Hash256) : List Byte := h.val

/-- The distinct ways the Rust code can panic or fail at runtime. -/
inductive RustPanic
  | startGtEnd
  | subUnderflow
  | sliceOob
  | copyLenMismatch
  | copyWithinOob
  | mmapZeroLen
  | assertOob
  | fromSliceLen
deriving DecidableEq

def exceptToSum {e a : Type} : Except e a → e ⊕ a
  | .error x => .inl x
  | .ok x => .inr x

instance exceptDecidableEq {e a : Type} [DecidableEq e] [DecidableEq a] :
    DecidableEq (Except e a) :=
  fun x y =>
    decidable_of_iff (exceptToSum x = exceptToSum y)
      (by cases x <;> cases y <;> simp [exceptToSum])

/-- `Hash256::from_slice`: asserts the slice has exactly 32 bytes. -/
def Hash256.from_slice (l : List Byte) : Except RustPanic Hash256 :=
  if h : l.length = HASHSIZE then .ok ⟨l, h⟩ else .error .fromSliceLen

/-- `new_non_empty_mmap(capacity)`:
`MmapOptions::new().len(capacity).map_anon().expect("FIXME")`.
An anonymous mapping is zero-initialized; requesting a zero-length mapping
fails (mmap rejects length 0), so the expect panics when `capacity == 0`. -/
def new_non_empty_mmap (capacity : Nat) : Except RustPanic (List Byte) :=
  if capacity = 0 then .error .mmapZeroLen else .ok (List.replicate capacity 0)

/-- `&buf[s..e]`: panics when `s > e` or `e > buf.len()`. -/
def rustSlice (buf : List Byte) (s e : Nat) : Except RustPanic (List Byte) :=
  if s ≤ e ∧ e ≤ buf.length then .ok ((buf.drop s).take (e - s))
  else .error .sliceOob

/-- `&buf[..e]`: panics when `e > buf.len()`. -/
def rustSliceTo (buf : List Byte) (e : Nat) : Except RustPanic (List Byte) :=
  if e ≤ buf.length then .ok (buf.take e) else .error .sliceOob

/-- `&buf[s..]`: panics when `s > buf.len()`. -/
def rustSliceFrom (buf : List Byte) (s : Nat) : Except RustPanic (List Byte) :=
  if s ≤ buf.length then .ok (buf.drop s) else .error .sliceOob

/-- `buf[s..e].copy_from_slice(src)`: panics when the subrange is out of
bounds or when `src.len()` differs from the subrange length. -/
def setSlice (buf : List Byte) (s e : Nat) (src : List Byte) :
    Except RustPanic (List Byte) :=
  if s ≤ e ∧ e ≤ buf.length then
    if src.length = e - s then .ok (buf.take s ++ src ++ buf.drop e)
    else .error .copyLenMismatch
  else .error .sliceOob

/-- `buf.copy_within(s..e, dest)`: overlap-safe copy of `buf[s..e]` to
`dest..dest+(e-s)`; panics when either range is out of bounds. -/
def copyWithin (buf : List Byte) (s e dest : Nat) : Except RustPanic (List Byte) :=
  if s ≤ e ∧ e ≤ buf.length ∧ dest + (e - s) ≤ buf.length then
    .ok (buf.take dest ++ (buf.drop s).take (e - s) ++ buf.drop (dest + (e - s)))
  else .error .copyWithinOob

/-- Plain `usize` subtraction `a - b`, which panics on underflow. -/
def usizeSub (a b : Nat) : Except RustPanic Nat :=
  if b ≤ a then .ok (a - b) else .error .subUnderflow

/-- `bytes_range(range)`: scales an index range to a byte range. -/
def bytes_range (s e : Nat) : Nat × Nat := (s * HASHSIZE, e * HASHSIZE)

/-- The `AnonMmap` struct: an optional anonymous mapping (its list length is
the physical capacity in bytes) plus the populated byte length `len`. -/
structure AnonMmap where
  mmap : Option (List Byte)
  len : Nat
deriving DecidableEq

/-- `AnonMmap::capacity_bytes`: `self.mmap.as_ref().map_or(0, |m| m.len())`. -/
def AnonMmap.capacity_bytes (a : AnonMmap) : Nat :=
  a.mmap.elim 0 List.length

/-- `AnonMmap::len_bytes`: `self.len`. -/
def AnonMmap.len_bytes (a : AnonMmap) : Nat := a.len

/-- `ArenaBacking::len` for `AnonMmap`: `self.len / HASHSIZE`. -/
def AnonMmap.arenaLen (a : AnonMmap) : Nat := a.len / HASHSIZE

/-- `ArenaBacking::with_capacity` for `AnonMmap`: sets `len` to
`capacity * HASHSIZE` and maps that many zero bytes unless `capacity == 0`. -/
def AnonMmap.with_capacity (capacity : Nat) : Except RustPanic AnonMmap :=
  let lenB := capacity * HASHSIZE
  if capacity = 0 then .ok ⟨none, lenB⟩
  else (new_non_empty_mmap lenB).map fun m => ⟨some m, lenB⟩

/-- `ArenaBacking::extend_capacity` for `AnonMmap`: when a mapping exists and
the requested byte capacity exceeds it, allocate a larger zeroed mapping,
copy the first `self.len` bytes across and swap it in; otherwise no-op. -/
def AnonMmap.extend_capacity (a : AnonMmap) (capacity : Nat) :
    Except RustPanic AnonMmap :=
  let capacityB := capacity * HASHSIZE
  match a.mmap with
  | none => .ok a
  | some m =>
    if capacityB > m.length then do
      let new_mmap ← new_non_empty_mmap capacityB
      let src ← rustSlice m 0 a.len
      let new_mmap2 ← setSlice new_mmap 0 a.len src
      .ok ⟨some new_mmap2, a.len⟩
    else .ok a

/-- The loop writing the replacement digests:
`mmap[range.start + i*HASHSIZE ..][..HASHSIZE].copy_from_slice(hash.as_bytes())`
for each hash in order (the running `start` advances by `HASHSIZE`). -/
def writeHashes : List Byte → Nat → List Hash256 → Except RustPanic (List Byte)
  | m, _, [] => .ok m
  | m, start, h :: rest => do
    let m2 ← setSlice m start (start + HASHSIZE) h.as_bytes
    writeHashes m2 (start + HASHSIZE) rest

/-- The `new_with_start_and_end_bytes!` macro: allocate a fresh mapping of
`newLen` bytes and, when an old mapping exists, copy `old[..rs]` to the
front and `old[re..]` to `new[rs + rwb ..]`. -/
def newWithStartAndEndBytes (a : AnonMmap) (rs re rwb newLen : Nat) :
    Except RustPanic (List Byte) := do
  let n0 ← new_non_empty_mmap newLen
  match a.mmap with
  | none => .ok n0
  | some old => do
    let headBytes ← rustSliceTo old rs
    let n1 ← setSlice n0 0 rs headBytes
    let tailBytes ← rustSliceFrom old re
    let n2 ← setSlice n1 (rs + rwb) n1.length tailBytes
    .ok n2

/-- `ArenaBacking::splice_forgetful` for `AnonMmap`, exactly as the live code:
the guard is `range.start.checked_sub(range.end).expect(..)` (note the
operand order), then the new byte length is computed, the `new_len == 0`
case drops the mapping, an in-place tail shift is used when the existing
mapping has room, a fresh mapping is built otherwise, and finally the
replacement digests are written at `range.start`. -/
def AnonMmap.splice_forgetful (a : AnonMmap) (rStart rEnd : Nat)
    (replace_with : List Hash256) : Except RustPanic AnonMmap := do
  let rs := rStart * HASHSIZE
  let re := rEnd * HASHSIZE
  let range_bytes ← if re ≤ rs then Except.ok (rs - re)
    else Except.error RustPanic.startGtEnd
  let replace_with_bytes := replace_with.length * HASHSIZE
  let old_len := a.len
  let new_len ← if replace_with_bytes > range_bytes then
      Except.ok (a.len + (replace_with_bytes - range_bytes))
    else usizeSub a.len (range_bytes - replace_with_bytes)
  if new_len = 0 then
    Except.ok ⟨none, 0⟩
  else do
    let mm ←
      if new_len > a.capacity_bytes then
        newWithStartAndEndBytes a rs re replace_with_bytes new_len
      else
        match a.mmap with
        | some m =>
          let first_end_byte := rs + replace_with_bytes
          if re ≠ first_end_byte ∧ first_end_byte < m.length then
            copyWithin m re old_len first_end_byte
          else Except.ok m
        | none => newWithStartAndEndBytes a rs re replace_with_bytes new_len
    let mm2 ← writeHashes mm rs replace_with
    Except.ok ⟨some mm2, new_len⟩

/-- `ArenaBacking::get` for `AnonMmap`:
`mmap.get(i*HASHSIZE..(i+1)*HASHSIZE).map(Hash256::from_slice)` — the bound
check is against the physical mapping length, and the window has exactly
`HASHSIZE` bytes so `from_slice` cannot panic. -/
def AnonMmap.get (a : AnonMmap) (i : Nat) : Option Hash256 :=
  a.mmap.bind fun m =>
    if h : (i + 1) * HASHSIZE ≤ m.length then
      some ⟨(m.drop (i * HASHSIZE)).take HASHSIZE, by
        have h2 : i * HASHSIZE + HASHSIZE ≤ m.length := by
          have : (i + 1) * HASHSIZE = i * HASHSIZE + HASHSIZE := by ring
          omega
        simp [List.length_take, List.length_drop]
        omega⟩
    else none

/-- `ArenaBacking::get_mut` for `AnonMmap` (same addressing; modelled as the
byte window it exposes). -/
def AnonMmap.get_mut_window (a : AnonMmap) (i : Nat) : Option (List Byte) :=
  a.mmap.bind fun m =>
    if (i + 1) * HASHSIZE ≤ m.length then
      some ((m.drop (i * HASHSIZE)).take HASHSIZE)
    else none

/-- `slice.chunks(HASHSIZE)` on a byte slice. -/
def chunks32 (l : List Byte) : List (List Byte) :=
  if h : l = [] then []
  else l.take HASHSIZE :: chunks32 (l.drop HASHSIZE)
termination_by l.length
decreasing_by
  have hp : 0 < l.length := List.length_pos.mpr h
  simp [List.length_drop, HASHSIZE]
  omega

/-- `ArenaBacking::iter_range` for `AnonMmap`: asserts
`range.end * HASHSIZE <= self.len`, then yields the digests of
`mmap[bytes_range]` chunk by chunk (empty when no mapping exists). -/
def AnonMmap.iter_range (a : AnonMmap) (rStart rEnd : Nat) :
    Except RustPanic (List Hash256) := do
  let rs := rStart * HASHSIZE
  let re := rEnd * HASHSIZE
  if re > a.len then Except.error RustPanic.assertOob
  else
    match a.mmap with
    | some m => do
      let window ← rustSlice m rs re
      (chunks32 window).mapM Hash256.from_slice
    | none => Except.ok []

/-- `Encode for AnonMmap::ssz_append`: appends `&mmap[..mmap.len()]` — the
FULL mapping (all capacity bytes), not the populated `self.len` bytes. -/
def AnonMmap.ssz_append (a : AnonMmap) : List Byte :=
  match a.mmap with
  | some m => m
  | none => []

/-- `Encode for AnonMmap::ssz_bytes_len`: returns `self.len()`, which
resolves to the trait method — the digest count, not a byte count. -/
def AnonMmap.ssz_bytes_len (a : AnonMmap) : Nat := a.arenaLen

/-- `Decode for AnonMmap::from_ssz_bytes`: maps `bytes.len()` bytes and
copies the input in verbatim; performs no validation of the input length
and never returns a `DecodeError`. -/
def AnonMmap.from_ssz_bytes (bytes : List Byte) : Except RustPanic AnonMmap := do
  let mmap ← new_non_empty_mmap bytes.length
  let mmap2 ← setSlice mmap 0 mmap.length bytes
  Except.ok ⟨some mmap2, bytes.length⟩

/-- `ArenaBacking::with_capacity` for `Vec<Hash256>`: `Vec::with_capacity`,
an empty vector (the reserved capacity is not observable in a list model). -/
def vec_with_capacity (_capacity : Nat) : List Hash256 := []

/-- `ArenaBacking::splice_forgetful` for `Vec<Hash256>`: `Vec::splice`,
which panics when `start > end` or `end > len`. -/
def vec_splice_forgetful (v : List Hash256) (rStart rEnd : Nat)
    (replace_with : List Hash256) : Except RustPanic (List Hash256) :=
  if rStart ≤ rEnd ∧ rEnd ≤ v.length then
    .ok (v.take rStart ++ replace_with ++ v.drop rEnd)
  else .error .sliceOob

/-- `ArenaBacking::get` for `Vec<Hash256>`: `self.get(i).copied()`. -/
def vec_get (v : List Hash256) (i : Nat) : Option Hash256 := v[i]?

/-- `ArenaBacking::iter_range` for `Vec<Hash256>`: `self[range]`, which
panics when `start > end` or `end > len`. -/
def vec_iter_range (v : List Hash256) (rStart rEnd : Nat) :
    Except RustPanic (List Hash256) :=
  if rStart ≤ rEnd ∧ rEnd ≤ v.length then
    .ok ((v.drop rStart).take (rEnd - rStart))
  else .error .sliceOob

/-- C9: Zero-capacity construction — `AnonMmap::with_capacity(0)` performs no
mapping: the result is the unmapped state with `mmap = none`, logical length
0 and `capacity_bytes() = 0`. -/
theorem C9_with_capacity_zero_unmapped :
    AnonMmap.with_capacity 0 = Except.ok (AnonMmap.mk none 0) ∧
    (AnonMmap.mk none 0).mmap = none ∧
    (AnonMmap.mk none 0).arenaLen = 0 ∧
    (AnonMmap.mk none 0).capacity_bytes = 0 := by
  refine ⟨rfl, rfl, ?_, rfl⟩
  decide

/-- C10: `AnonMmap::extend_capacity(n)` on a backing in the logically-empty,
unmapped state (no mapping, zero length) is a no-op for every `n`: the
backing is returned unchanged, still with `capacity_bytes() = 0` and
`len() = 0`. -/
theorem C10_extend_capacity_noop_when_unmapped (a : AnonMmap) (n : Nat)
    (hm : a.mmap = none) (hl : a.len = 0) :
    a.extend_capacity n = Except.ok a ∧
    a.capacity_bytes = 0 ∧ a.arenaLen = 0 := by
  refine ⟨?_, ?_, ?_⟩
  · unfold AnonMmap.extend_capacity
    rw [hm]
  · unfold AnonMmap.capacity_bytes
    rw [hm]
    rfl
  · unfold AnonMmap.arenaLen
    rw [hl]
    rfl

theorem C10_extend_capacity_noop_witness :
    (AnonMmap.mk none 0).extend_capacity 5 = Except.ok (AnonMmap.mk none 0) ∧
    (AnonMmap.mk none 0).capacity_bytes = 0 ∧
    (AnonMmap.mk none 0).arenaLen = 0 :=
  C10_extend_capacity_noop_when_unmapped (AnonMmap.mk none 0) 5 rfl rfl

/-- C1: Splice correctness fails on the byte-mapped backing. The arena
decoded from 64 bytes (two digests) panics on the valid splice of range
[0, 1) with an empty replacement, because the guard computes
`range.start.checked_sub(range.end)`, which is `None` whenever
`start < end`; the claimed prefix/middle/suffix result is never produced. -/
theorem C1_anonmmap_splice_panics_on_valid_range :
    AnonMmap.from_ssz_bytes (List.replicate 64 0) =
      Except.ok (AnonMmap.mk (some (List.replicate 64 0)) 64) ∧
    (AnonMmap.mk (some (List.replicate 64 0)) 64).splice_forgetful 0 1 [] =
      Except.error RustPanic.startGtEnd := by
  constructor
  · decide
  · decide

/-- C2: Backend equivalence fails at the very first observation:
`Vec::with_capacity(1)` has length 0, while `AnonMmap::with_capacity(1)`
sets its byte length to the full requested capacity, so its `len()` is 1
and `get(0)` already answers `some` of a zero digest instead of `none`. -/
theorem C2_backend_divergence_at_with_capacity :
    vec_with_capacity 1 = ([] : List Hash256) ∧
    (vec_with_capacity 1).length = 0 ∧
    vec_get (vec_with_capacity 1) 0 = none ∧
    AnonMmap.with_capacity 1 =
      Except.ok (AnonMmap.mk (some (List.replicate 32 0)) 32) ∧
    (AnonMmap.mk (some (List.replicate 32 0)) 32).arenaLen = 1 ∧
    (AnonMmap.mk (some (List.replicate 32 0)) 32).get 0 =
      some ⟨List.replicate 32 0, by decide⟩ := by
  refine ⟨rfl, rfl, rfl, by decide, by decide, by decide⟩

/-- C3: Invalid-range rejection fails. On the 64-byte arena the inverted
range [1, 0) (end before start) passes the guard — which computes
`start - end`, succeeding exactly when `end <= start` — and execution
reaches the tail-shifting `copy_within`, which then attempts an
out-of-bounds copy; memory is touched rather than the call being rejected
up front. -/
theorem C3_inverted_range_reaches_memory_copy :
    AnonMmap.from_ssz_bytes (List.replicate 64 1) =
      Except.ok (AnonMmap.mk (some (List.replicate 64 1)) 64) ∧
    (AnonMmap.mk (some (List.replicate 64 1)) 64).splice_forgetful 1 0 [] =
      Except.error RustPanic.copyWithinOob := by
  constructor
  · decide
  · decide

/-- C4: The length invariant fails after decoding: `from_ssz_bytes` accepts
a 33-byte input, producing a backing with `len_bytes() = 33` and
`len() = 1`, so `len_bytes()` is neither `len() * 32` nor a multiple of
32 at this observable point. -/
theorem C4_len_bytes_not_multiple_after_decode :
    AnonMmap.from_ssz_bytes (List.replicate 33 0) =
      Except.ok (AnonMmap.mk (some (List.replicate 33 0)) 33) ∧
    (AnonMmap.mk (some (List.replicate 33 0)) 33).len_bytes = 33 ∧
    (AnonMmap.mk (some (List.replicate 33 0)) 33).arenaLen = 1 ∧
    (AnonMmap.mk (some (List.replicate 33 0)) 33).len_bytes ≠
      (AnonMmap.mk (some (List.replicate 33 0)) 33).arenaLen * HASHSIZE ∧
    (AnonMmap.mk (some (List.replicate 33 0)) 33).len_bytes % HASHSIZE ≠ 0 := by
  refine ⟨by decide, rfl, by decide, by decide, by decide⟩

/-- C5: The round trip fails once the mapping carries slack. Decoding 32
bytes and then calling `extend_capacity(2)` yields a backing with
`len_bytes() = 32` but a 64-byte mapping; `ssz_append` emits the FULL
mapping (64 bytes, slack included) rather than exactly the populated
`len_bytes()` bytes, and decoding that output yields `len() = 2` instead
of the original `len() = 1`. -/
theorem C5_roundtrip_breaks_after_extend_capacity :
    AnonMmap.from_ssz_bytes (List.replicate 32 1) =
      Except.ok (AnonMmap.mk (some (List.replicate 32 1)) 32) ∧
    (AnonMmap.mk (some (List.replicate 32 1)) 32).extend_capacity 2 =
      Except.ok
        (AnonMmap.mk (some (List.replicate 32 1 ++ List.replicate 32 0)) 32) ∧
    (AnonMmap.mk (some (List.replicate 32 1 ++ List.replicate 32 0))
        32).ssz_append.length = 64 ∧
    (AnonMmap.mk (some (List.replicate 32 1 ++ List.replicate 32 0))
        32).len_bytes = 32 ∧
    AnonMmap.from_ssz_bytes
        (AnonMmap.mk (some (List.replicate 32 1 ++ List.replicate 32 0))
          32).ssz_append =
      Except.ok
        (AnonMmap.mk (some (List.replicate 32 1 ++ List.replicate 32 0)) 64) ∧
    (AnonMmap.mk (some (List.replicate 32 1 ++ List.replicate 32 0))
        64).arenaLen = 2 ∧
    (AnonMmap.mk (some (List.replicate 32 1 ++ List.replicate 32 0))
        32).arenaLen = 1 := by
  refine ⟨by decide, by decide, by decide, rfl, by decide, by decide, by decide⟩

/-- C6: Malformed-input decoding fails to fail: `from_ssz_bytes` performs no
multiple-of-32 check, so the 1-byte input `[0]` — whose length is not a
multiple of 32 — decodes successfully into a constructed backing with
`len_bytes() = 1` and `len() = 0`, instead of producing a decode error. -/
theorem C6_decode_accepts_non_multiple_of_32 :
    (List.length ([0] : List Byte)) % HASHSIZE ≠ 0 ∧
    AnonMmap.from_ssz_bytes [0] =
      Except.ok (AnonMmap.mk (some [0]) 1) ∧
    (AnonMmap.mk (some [0]) 1).arenaLen = 0 := by
  refine ⟨by decide, by decide, by decide⟩

/-- C7: The get bounds contract fails when physical capacity exceeds the
logical length. Decoding 32 bytes gives `len() = 1`; after
`extend_capacity(2)` the mapping has 64 bytes, and `get(1)` — an index
not below `len()` — returns `some` zero digest because the bound check is
against the mapping capacity, not against `len_bytes`. -/
theorem C7_get_answers_beyond_len_after_extend :
    AnonMmap.from_ssz_bytes (List.replicate 32 7) =
      Except.ok (AnonMmap.mk (some (List.replicate 32 7)) 32) ∧
    (AnonMmap.mk (some (List.replicate 32 7)) 32).extend_capacity 2 =
      Except.ok
        (AnonMmap.mk (some (List.replicate 32 7 ++ List.replicate 32 0)) 32) ∧
    (AnonMmap.mk (some (List.replicate 32 7 ++ List.replicate 32 0))
        32).arenaLen = 1 ∧
    (AnonMmap.mk (some (List.replicate 32 7 ++ List.replicate 32 0)) 32).get 1 =
      some ⟨List.replicate 32 0, by decide⟩ := by
  refine ⟨by decide, by decide, by decide, by decide⟩

/-- C8: Empty-arena collapse fails on the byte-mapped backing: splicing the
full range [0, 1) of a one-digest arena with an empty replacement panics
at the inverted `checked_sub` guard instead of yielding the empty arena
with `len() = 0`. -/
theorem C8_collapse_splice_panics :
    AnonMmap.from_ssz_bytes (List.replicate 32 3) =
      Except.ok (AnonMmap.mk (some (List.replicate 32 3)) 32) ∧
    (AnonMmap.mk (some (List.replicate 32 3)) 32).arenaLen = 1 ∧
    (AnonMmap.mk (some (List.replicate 32 3)) 32).splice_forgetful 0 1 [] =
      Except.error RustPanic.startGtEnd := by
  refine ⟨by decide, by decide, by decide⟩
